import Mathlib

/-!
Verification of the parallax controller repository (namalsk-forged-territories).

The repository contains several near-duplicate revisions of one `Parallax`
class.  Each revision is embedded below under its own namespace:

* `TsRev1`   — first revision in `src/ts/parallax.ts` (inputX/inputY state,
  unclamped `applyLayerTransformations`); identical compiled form is the
  first revision of `src/docs/scripts/parallax.js` and `src/unnamed/part_001`.
* `TsRev2`   — second revision in `src/ts/parallax.ts` (per-layer clamped
  `handleMouseMove` / `handleDeviceOrientation`); compiled form is
  `src/unnamed/part_002`.
* `DocsRev2` — second revision of `src/docs/scripts/parallax.js` (the
  calibration engine: `applyCalibration`, `rotate`, clamped
  `applyLayerTransformations` with event-origin scaling); its TypeScript
  source is the first revision of `src/unnamed/part_003`.
* `Part000`  — first revision of `src/unnamed/part_000` (dataset-based
  `handleMouseMove` with `|| "0"` / `|| "50"` defaults).
* `Part003Rev2` — second revision of `src/unnamed/part_003` (strict
  `findBaseElement` that throws when the base marker is missing).

JavaScript numbers are modelled as `ℚ`; `NaN` is modelled by `Option ℚ`
with `none` for `NaN` where it can arise (attribute parsing).  DOM
elements are modelled by their id and attribute list, and a container by
its list of children (attribute selectors in this code only ever match
the layer children).
-/

/-- Numeric value of a decimal digit character, as in the usual
`charCode - 48` idiom. -/
def digitToNat (c : Char) : ℕ := c.toNat - 48

/-- Value of a string of decimal digits read left to right. -/
def natOfDigits (cs : List Char) : ℕ :=
  cs.foldl (fun acc c => 10 * acc + digitToNat c) 0

/-- Value of a fractional digit string: `fracOfDigits ['2','5'] = 0.25`. -/
def fracOfDigits (cs : List Char) : ℚ :=
  cs.foldr (fun c acc => ((digitToNat c : ℚ) + acc) / 10) 0

/-- Longest unsigned decimal prefix of a character list, `none` when no
digit is present (the `NaN` outcome).  Models the number-prefix scan of
the JavaScript builtin `parseFloat` restricted to finite decimal
literals without exponents (the forms the repository's attributes use). -/
def parseUnsignedDecimal (cs : List Char) : Option ℚ :=
  let intPart := cs.takeWhile Char.isDigit
  let rest := cs.dropWhile Char.isDigit
  match rest with
  | '.' :: rest2 =>
      let fracPart := rest2.takeWhile Char.isDigit
      if intPart.isEmpty && fracPart.isEmpty then none
      else some ((natOfDigits intPart : ℚ) + fracOfDigits fracPart)
  | _ => if intPart.isEmpty then none else some ((natOfDigits intPart : ℚ))

/-- Model of the JavaScript builtin `parseFloat`: skip leading
whitespace, read an optional sign and the longest decimal-number prefix;
`none` models `NaN` (no parsable prefix). -/
def parseFloat (s : String) : Option ℚ :=
  let cs := s.data.dropWhile Char.isWhitespace
  match cs with
  | '-' :: rest => (parseUnsignedDecimal rest).map Neg.neg
  | '+' :: rest => parseUnsignedDecimal rest
  | _ => parseUnsignedDecimal cs

/-- JavaScript `a || d` on an optional string: `undefined` and the empty
string are falsy and yield the default. -/
def jsOrString (a : Option String) (d : String) : String :=
  match a with
  | none => d
  | some s => if s.isEmpty then d else s

/-- JavaScript `a || d` on an optional number: `undefined`, `NaN`
(modelled `none`) and `0` are falsy and yield the default. -/
def jsOrQ (a : Option ℚ) (d : ℚ) : ℚ :=
  match a with
  | none => d
  | some q => if q = 0 then d else q

/-- The `parseFloat(attr) || 0` idiom of the third `src/ts/parallax.ts`
revision (lines 857–858): `NaN` coerces to `0`. -/
def parseFloatOrZero (s : String) : ℚ := jsOrQ (parseFloat s) 0

/-- A configured parallax layer: the cached `depth` and `maxRange`
properties assigned by `initializeLayers` (`interface ParallaxLayer`). -/
structure ParallaxLayer where
  depth : ℚ
  maxRange : ℚ
deriving DecidableEq

/-- The option bag (`interface ParallaxOptions`); `none` models an
unspecified optional field. -/
structure ParallaxOptions where
  smoothingFactor : Option ℚ
  gyroEffectModifier : Option ℚ
  sensitivity : Option ℚ
deriving DecidableEq

namespace TsRev1

/-- `src/ts/parallax.ts` lines 77–78 (first revision): parse the
`data-depth` / `data-max-range` attributes of one layer with `?? '0'`
guarding only a missing attribute.  `none` in the result models `NaN`. -/
def parseLayerAttrs (depthAttr maxRangeAttr : Option String) :
    Option ℚ × Option ℚ :=
  (parseFloat (depthAttr.getD "0"), parseFloat (maxRangeAttr.getD "0"))

/-- `src/ts/parallax.ts` lines 195–202 (first revision)
`applyLayerTransformations`: per layer the written translation is
`(inputX * depth * inputModifierX, inputY * depth * inputModifierY)`
with no clamping. -/
def applyLayerTransformations (inputX inputY inputModifierX inputModifierY : ℚ)
    (layers : List ParallaxLayer) : List (ℚ × ℚ) :=
  layers.map fun layer =>
    (inputX * layer.depth * inputModifierX, inputY * layer.depth * inputModifierY)

/-- Controller state carried by the first-revision handlers: the shared
`inputX`/`inputY` fields and the last transforms written to the layers. -/
structure ControllerState where
  inputX : ℚ
  inputY : ℚ
  transforms : List (ℚ × ℚ)
deriving DecidableEq

/-- `src/ts/parallax.ts` lines 173–193 (first revision)
`handleDeviceMotion`: if `rotationRate` is absent, or its `beta` or
`gamma` is null, nothing happens; otherwise the inputs are normalized by
`sensitivity ?? 30` and the (unclamped) transformations are applied with
the `gyroEffectModifier ?? 10` motion modifier. -/
def handleDeviceMotion (options : ParallaxOptions) (layers : List ParallaxLayer)
    (s : ControllerState) (rotationRate : Option (Option ℚ × Option ℚ)) :
    ControllerState :=
  match rotationRate with
  | none => s
  | some (beta?, gamma?) =>
    match beta?, gamma? with
    | some beta, some gamma =>
      let inputX := beta / (options.sensitivity.getD 30)
      let inputY := gamma / (options.sensitivity.getD 30)
      let motionModifier := options.gyroEffectModifier.getD 10
      { inputX := inputX, inputY := inputY,
        transforms :=
          applyLayerTransformations inputX inputY motionModifier motionModifier layers }
    | _, _ => s

end TsRev1

namespace TsRev2

/-- `src/ts/parallax.ts` lines 606–617 (second revision), the per-layer
body of `handleMouseMove`: displacement `(mouse - center) * depth *
smoothingFactor` on each axis, clamped by
`Math.min(Math.max(delta, -maxRange), maxRange)`. -/
def handleMouseMoveLayer (mouseX mouseY centerX centerY smoothingFactor : ℚ)
    (layer : ParallaxLayer) : ℚ × ℚ :=
  let deltaX := (mouseX - centerX) * layer.depth * smoothingFactor
  let deltaY := (mouseY - centerY) * layer.depth * smoothingFactor
  (min (max deltaX (-layer.maxRange)) layer.maxRange,
   min (max deltaY (-layer.maxRange)) layer.maxRange)

/-- `src/ts/parallax.ts` lines 636–652 (second revision)
`handleDeviceOrientation`: returns (leaving the written transforms
untouched) when `beta` or `gamma` is null; otherwise computes
`movementX = gamma * (gyroEffectModifier || 10) * (smoothingFactor || 0.13)`
(and symmetrically for `beta`) and writes per-layer clamped deltas. -/
def handleDeviceOrientation (options : ParallaxOptions)
    (layers : List ParallaxLayer) (transforms : List (ℚ × ℚ))
    (beta? gamma? : Option ℚ) : List (ℚ × ℚ) :=
  match beta?, gamma? with
  | some beta, some gamma =>
    let movementX := gamma * jsOrQ options.gyroEffectModifier 10 *
      jsOrQ options.smoothingFactor (13 / 100)
    let movementY := beta * jsOrQ options.gyroEffectModifier 10 *
      jsOrQ options.smoothingFactor (13 / 100)
    layers.map fun layer =>
      (min (max (movementX * layer.depth) (-layer.maxRange)) layer.maxRange,
       min (max (movementY * layer.depth) (-layer.maxRange)) layer.maxRange)
  | _, _ => transforms

end TsRev2

namespace Part000

/-- `src/unnamed/part_000` lines 25–26 (first revision): dataset reads
with JavaScript `||` defaults — depth falls back to `"0"`, maxRange to
`"50"`, on a missing or empty dataset entry.  `none` models `NaN`. -/
def parseLayerAttrs (depthAttr maxRangeAttr : Option String) :
    Option ℚ × Option ℚ :=
  (parseFloat (jsOrString depthAttr "0"), parseFloat (jsOrString maxRangeAttr "50"))

end Part000

/-- Calibration-engine state of the second `src/docs/scripts/parallax.js`
revision: the class fields `inputX`, `inputY`, `calibrationThreshold`,
`calibrationFlag`, `calibrationX`, `calibrationY` (lines 238–248). -/
structure CalState where
  inputX : ℚ
  inputY : ℚ
  calibrationThreshold : ℚ
  calibrationFlag : Bool
  calibrationX : ℚ
  calibrationY : ℚ
deriving DecidableEq

namespace DocsRev2

/-- Field initializers of the calibration revision
(`src/docs/scripts/parallax.js` lines 238–248): inputs and offsets `0`,
`calibrationThreshold = 100`, `calibrationFlag = true`. -/
def initialCalState : CalState :=
  { inputX := 0, inputY := 0, calibrationThreshold := 100,
    calibrationFlag := true, calibrationX := 0, calibrationY := 0 }

/-- `src/docs/scripts/parallax.js` lines 340–349 `applyCalibration`: on
each axis the calibration offset is subtracted only when
`Math.abs(input - calibration) > calibrationThreshold`; otherwise the
input passes through unchanged. -/
def applyCalibration (st : CalState) (inputX inputY : ℚ) : ℚ × ℚ :=
  (if |inputX - st.calibrationX| > st.calibrationThreshold
     then inputX - st.calibrationX else inputX,
   if |inputY - st.calibrationY| > st.calibrationThreshold
     then inputY - st.calibrationY else inputY)

/-- `src/docs/scripts/parallax.js` lines 350–366 `rotate`: null guard,
portrait/landscape remap of `beta`/`gamma`, one-shot re-anchoring of the
calibration offsets when `calibrationFlag` is set, `applyCalibration`,
then division by `sensitivity ?? 30` into `inputX`/`inputY`. -/
def rotate (options : ParallaxOptions) (isPortrait : Bool) (st : CalState)
    (beta? gamma? : Option ℚ) : CalState :=
  match beta?, gamma? with
  | some beta, some gamma =>
    let inputX := if isPortrait then gamma else beta
    let inputY := if isPortrait then beta else gamma
    let st1 := if st.calibrationFlag then
        { st with calibrationFlag := false,
                  calibrationX := inputX, calibrationY := inputY }
      else st
    let p := applyCalibration st1 inputX inputY
    let sensitivity := options.sensitivity.getD 30
    { st1 with inputX := p.1 / sensitivity, inputY := p.2 / sensitivity }
  | _, _ => st

/-- A stream of orientation samples fed one by one through `rotate`
(what repeated `deviceorientation` events do between calibration-timer
firings). -/
def rotateStream (options : ParallaxOptions) (isPortrait : Bool)
    (st : CalState) (samples : List (ℚ × ℚ)) : CalState :=
  samples.foldl (fun s bg => rotate options isPortrait s (some bg.1) (some bg.2)) st

/-- Event origins distinguished by the calibration revision's
`applyLayerTransformations`. -/
inductive EventOrigin where
  | mouse
  | gyro
  | motion
deriving DecidableEq

/-- The per-origin damping applied to the input modifiers
(`src/docs/scripts/parallax.js` lines 408–417): `gyro` scales by `0.1`,
`motion` by `0.05`, `mouse` is unscaled. -/
def eventOriginScale (origin : EventOrigin) : ℚ :=
  match origin with
  | .mouse => 1
  | .gyro => 1 / 10
  | .motion => 1 / 20

/-- `src/docs/scripts/parallax.js` lines 403–426
`applyLayerTransformations` (same code as `src/unnamed/part_003` lines
186–211): per layer the written translation on each axis is
`Math.min(Math.max(-maxRange, input * depth * modifier * center), maxRange)`. -/
def applyLayerTransformations (inputX inputY inputModifierX inputModifierY : ℚ)
    (eventOrigin : EventOrigin) (centerX centerY : ℚ)
    (layers : List ParallaxLayer) : List (ℚ × ℚ) :=
  let modifierX := inputModifierX * eventOriginScale eventOrigin
  let modifierY := inputModifierY * eventOriginScale eventOrigin
  layers.map fun layer =>
    (min (max (-layer.maxRange) (inputX * layer.depth * modifierX * centerX))
       layer.maxRange,
     min (max (-layer.maxRange) (inputY * layer.depth * modifierY * centerY))
       layer.maxRange)

end DocsRev2

/-- A DOM element, reduced to what the constructors inspect: its id and
its attribute list (name/value pairs). -/
structure Elem where
  id : String
  attrs : List (String × String)
deriving DecidableEq

/-- `getAttribute`: value of the named attribute, `null` when absent. -/
def Elem.getAttribute (e : Elem) (name : String) : Option String :=
  (e.attrs.find? (fun p => p.1 == name)).map (fun p => p.2)

/-- `hasAttribute` as a Boolean test. -/
def Elem.hasAttr (e : Elem) (name : String) : Bool :=
  e.attrs.any (fun p => p.1 == name)

/-- `container.querySelector('[name]')`: first child carrying the given
attribute (the container's layer children are the only candidates in
the repository's markup, so the subtree search is a scan of the child
list here). -/
def querySelectorAttr (children : List Elem) (name : String) : Option Elem :=
  children.find? (fun e => e.hasAttr name)

/-- A document, for `getElementById`: each id maps to the child list of
the identified container element. -/
def getElementById (doc : List (String × List Elem)) (theId : String) :
    Option (List Elem) :=
  (doc.find? (fun p => p.1 == theId)).map (fun p => p.2)

/-- The fallback element `findBaseElement` synthesizes for an empty
container: `document.createElement('div')` with `id = "layer-01"`. -/
def fallbackDiv : Elem := { id := "layer-01", attrs := [] }

/-- Result of base-element resolution: the chosen base, the container's
children after a possible `appendChild`, and which diagnostics were
logged (`console.error` / `console.warn`). -/
structure FindBaseOutcome where
  base : Elem
  children : List Elem
  loggedError : Bool
  loggedWarn : Bool
deriving DecidableEq

/-- Marker used by an `Except` result to model a thrown error. -/
def isErr {α : Type} (x : Except String α) : Bool :=
  match x with
  | .error _ => true
  | .ok _ => false

namespace TsRev1

/-- `src/ts/parallax.ts` lines 86–102 (first revision)
`findBaseElement`: prefer the `[data-is-base-dimensions]` element; else
log an error and take the first child; for an empty container
additionally log a warning, create an empty div `layer-01`, append it
and return it.  Total — it never throws. -/
def findBaseElement (children : List Elem) : FindBaseOutcome :=
  match querySelectorAttr children "data-is-base-dimensions" with
  | some base =>
    { base := base, children := children, loggedError := false, loggedWarn := false }
  | none =>
    match children with
    | c :: _ =>
      { base := c, children := children, loggedError := true, loggedWarn := false }
    | [] =>
      { base := fallbackDiv, children := [fallbackDiv],
        loggedError := true, loggedWarn := true }

/-- `src/ts/parallax.ts` lines 74–84 (first revision)
`initializeLayers` applied to the `querySelectorAll('[data-depth]')`
children: cache `(depth, maxRange)` per layer via `parseLayerAttrs`. -/
def initializeLayers (children : List Elem) : List (Option ℚ × Option ℚ) :=
  (children.filter (fun e => e.hasAttr "data-depth")).map fun e =>
    parseLayerAttrs (e.getAttribute "data-depth") (e.getAttribute "data-max-range")

/-- The fallible part of the `Parallax` constructor
(`src/ts/parallax.ts` lines 43–72, first revision): throw exactly when
`getElementById` yields null, otherwise run the (total) layer
initialization and base-element resolution. -/
def parallaxConstruct (doc : List (String × List Elem)) (containerId : String) :
    Except String (List (Option ℚ × Option ℚ) × FindBaseOutcome) :=
  match getElementById doc containerId with
  | none => .error ("Element with ID '" ++ containerId ++ "' not found.")
  | some children => .ok (initializeLayers children, findBaseElement children)

end TsRev1

namespace Part003Rev2

/-- `src/unnamed/part_003` lines 317–321 (second revision)
`findBaseElement`: throws when no `[data-isBaseDimensions]` element
exists — no fallback chain in this revision. -/
def findBaseElement (children : List Elem) : Except String Elem :=
  match querySelectorAttr children "data-isBaseDimensions" with
  | some base => .ok base
  | none => .error "Base element with `data-isBaseDimensions` not found."

/-- The fallible part of that revision's constructor
(`src/unnamed/part_003` lines 300–311): no null check on the container
(a missing container surfaces as a TypeError on
`null.querySelectorAll`), then the throwing `findBaseElement`. -/
def parallaxConstruct (doc : List (String × List Elem)) (containerId : String) :
    Except String Elem :=
  match getElementById doc containerId with
  | none => .error "TypeError: null has no method querySelectorAll"
  | some children => findBaseElement children

end Part003Rev2

/-- The clamp `Math.min(Math.max(x, -m), m)` leaves a value alone while
it has not reached the clamp. -/
theorem clamp_eq_self {x m : ℚ} (h : |x| ≤ m) : min (max x (-m)) m = x := by
  rcases abs_le.mp h with ⟨h1, h2⟩
  rw [max_eq_left h1, min_eq_left h2]

/-- Folding a step function over any number of copies of a sample fixes
every state the sample already fixes. -/
theorem foldl_replicate_fixed {α β : Type} (f : α → β → α) (x : β) (s : α)
    (h : f s x = s) : ∀ n : ℕ, List.foldl f s (List.replicate n x) = s := by
  intro n
  induction n with
  | zero => rfl
  | succ n ih => rw [List.replicate_succ, List.foldl_cons, h, ih]

/-- Claim C1 (code bug): in the first `src/ts/parallax.ts` revision the
cited `applyLayerTransformations` applies no clamp at all, so a layer
with `depth = 1`, `maxRange = 0`, input `1` and modifier `10` receives
the translation `(10px, 10px)`, whose magnitude exceeds its configured
`maxRange` — contradicting the clamping invariant that the class's own
`maxRange` documentation and every sibling revision express. -/
theorem c1_unclamped_translation_exceeds_maxRange :
    TsRev1.applyLayerTransformations 1 1 10 10 [{ depth := 1, maxRange := 0 }] =
      [(10, 10)] ∧ ¬(|(10 : ℚ)| ≤ (0 : ℚ)) := by
  constructor
  · norm_num [TsRev1.applyLayerTransformations]
  · norm_num

/-- Claim C2 (amended): in the cited `rotate`/`applyCalibration`, the
calibration offset (re-anchored to the raw remapped reading exactly when
the calibration flag is set) is subtracted from the raw reading only
when the deviation exceeds `calibrationThreshold`; otherwise the raw
reading itself is divided by sensitivity and stored as the input. -/
theorem c2_calibration_subtracted_only_beyond_threshold :
    ∀ (options : ParallaxOptions) (isPortrait : Bool) (st : CalState)
      (beta gamma : ℚ),
      let rawX : ℚ := if isPortrait then gamma else beta
      let rawY : ℚ := if isPortrait then beta else gamma
      let offX : ℚ := if st.calibrationFlag then rawX else st.calibrationX
      let offY : ℚ := if st.calibrationFlag then rawY else st.calibrationY
      let st1 := DocsRev2.rotate options isPortrait st (some beta) (some gamma)
      st1.calibrationX = offX ∧ st1.calibrationY = offY ∧
      st1.inputX = (if |rawX - offX| > st.calibrationThreshold
          then rawX - offX else rawX) / options.sensitivity.getD 30 ∧
      st1.inputY = (if |rawY - offY| > st.calibrationThreshold
          then rawY - offY else rawY) / options.sensitivity.getD 30 := by
  intro options isPortrait st beta gamma
  cases h : st.calibrationFlag <;>
    simp [DocsRev2.rotate, DocsRev2.applyCalibration, h]

/-- Claim C2 counterexample: with the offset `calibrationX = 5` and a raw
(portrait-remapped) reading `gamma = 10`, the deviation `5` stays within
the threshold `100`, so the stored input is `10 / 30`, not the claimed
`(10 - 5) / 30` — the offset is not "always subtracted". -/
theorem c2_counterexample :
    (DocsRev2.rotate ⟨none, none, none⟩ true
        { inputX := 0, inputY := 0, calibrationThreshold := 100,
          calibrationFlag := false, calibrationX := 5, calibrationY := 7 }
        (some 20) (some 10)).inputX = 10 / 30 ∧
      ((10 : ℚ) / 30 ≠ (10 - 5) / 30) := by
  constructor
  · norm_num [DocsRev2.rotate, DocsRev2.applyCalibration]
  · norm_num

/-- Closed form of a constant orientation stream through the calibration
engine: the first sample anchors the offsets to the remapped bias and
every later identical sample leaves the state unchanged, so the input
stays at bias over sensitivity. -/
theorem rotateStream_constant_replicate (options : ParallaxOptions)
    (isPortrait : Bool) (beta gamma : ℚ) (n : ℕ) :
    DocsRev2.rotateStream options isPortrait DocsRev2.initialCalState
        (List.replicate (n + 1) (beta, gamma)) =
      { inputX := (if isPortrait then gamma else beta) / options.sensitivity.getD 30,
        inputY := (if isPortrait then beta else gamma) / options.sensitivity.getD 30,
        calibrationThreshold := 100, calibrationFlag := false,
        calibrationX := if isPortrait then gamma else beta,
        calibrationY := if isPortrait then beta else gamma } := by
  set rawX : ℚ := if isPortrait then gamma else beta with hrawX
  set rawY : ℚ := if isPortrait then beta else gamma with hrawY
  set s1 : CalState :=
    { inputX := rawX / options.sensitivity.getD 30,
      inputY := rawY / options.sensitivity.getD 30,
      calibrationThreshold := 100, calibrationFlag := false,
      calibrationX := rawX, calibrationY := rawY } with hs1
  have hstep : DocsRev2.rotate options isPortrait DocsRev2.initialCalState
      (some beta) (some gamma) = s1 := by
    simp only [DocsRev2.rotate, DocsRev2.applyCalibration, DocsRev2.initialCalState, hs1]
    norm_num
  have hfix : DocsRev2.rotate options isPortrait s1 (some beta) (some gamma) = s1 := by
    simp only [DocsRev2.rotate, DocsRev2.applyCalibration, hs1]
    norm_num
  rw [DocsRev2.rotateStream, List.replicate_succ, List.foldl_cons]
  rw [show DocsRev2.rotate options isPortrait DocsRev2.initialCalState
        (some beta) (some gamma) = s1 from hstep]
  exact foldl_replicate_fixed _ _ _ hfix n

/-- Claim C3 (amended): feeding the cited calibration engine a
constant-bias orientation stream anchors the calibration offsets to the
(posture-remapped) bias after the first sample, but the calibrated
input is not driven toward zero — it stays at bias over sensitivity for
the entire stream, because the offset is only subtracted when the
deviation from it exceeds the calibration threshold. -/
theorem c3_constant_stream_input_stays_at_bias :
    ∀ (options : ParallaxOptions) (isPortrait : Bool) (beta gamma : ℚ) (n : ℕ),
      let rawX : ℚ := if isPortrait then gamma else beta
      let rawY : ℚ := if isPortrait then beta else gamma
      let fin := DocsRev2.rotateStream options isPortrait DocsRev2.initialCalState
          (List.replicate (n + 1) (beta, gamma))
      fin.calibrationX = rawX ∧ fin.calibrationY = rawY ∧
        fin.inputX = rawX / options.sensitivity.getD 30 ∧
        fin.inputY = rawY / options.sensitivity.getD 30 := by
  intro options isPortrait beta gamma n
  rw [rotateStream_constant_replicate]
  exact ⟨rfl, rfl, rfl, rfl⟩

/-- Claim C3 counterexample: a constant stream of 100 samples with
`beta = 10`, `gamma = 5` (portrait, default sensitivity 30) leaves the
calibrated input at `(1/6, 1/3)` — not within any reasonable
floating-point tolerance of zero (here `1/100`). -/
theorem c3_counterexample :
    (DocsRev2.rotateStream ⟨none, none, none⟩ true DocsRev2.initialCalState
        (List.replicate 100 (10, 5))).inputX = 1 / 6 ∧
    (DocsRev2.rotateStream ⟨none, none, none⟩ true DocsRev2.initialCalState
        (List.replicate 100 (10, 5))).inputY = 1 / 3 ∧
    ¬(|(1 : ℚ) / 6| < 1 / 100) := by
  have h := rotateStream_constant_replicate ⟨none, none, none⟩ true 10 5 99
  norm_num at h
  rw [show (100 : ℕ) = 99 + 1 from rfl, h]
  norm_num
  rw [abs_of_nonneg (by norm_num : (0 : ℚ) ≤ 1 / 6)]
  norm_num

/-- Claim C4 (amended): in the fallback-chain revisions (the cited
`src/ts/parallax.ts` constructor), construction throws exactly when no
element with the configured container id exists; layer initialization
and base-element resolution are total, so nothing else throws. -/
theorem c4_construct_throws_iff_container_missing :
    ∀ (doc : List (String × List Elem)) (containerId : String),
      isErr (TsRev1.parallaxConstruct doc containerId) = true ↔
        getElementById doc containerId = none := by
  intro doc containerId
  cases h : getElementById doc containerId <;>
    simp [TsRev1.parallaxConstruct, isErr, h]

/-- Claim C4 counterexample: in the cited strict revision
(`src/unnamed/part_003` lines 317–321) construction throws even though
the container exists — a container `parallaxContainer` whose single
child lacks the base-dimensions marker makes `findBaseElement` throw,
so a missing container is not the only hard failure mode. -/
theorem c4_counterexample :
    isErr (Part003Rev2.parallaxConstruct
        [("parallaxContainer", [({ id := "child1", attrs := [] } : Elem)])]
        "parallaxContainer") = true ∧
      getElementById
        [("parallaxContainer", [({ id := "child1", attrs := [] } : Elem)])]
        "parallaxContainer" ≠ none := by
  constructor
  · decide
  · decide

/-- Claim C5 (amended): in the revisions with the fallback chain (the
cited `src/ts/parallax.ts` `findBaseElement`), a container without the
base-dimensions marker but with children yields its first child with a
logged error; an empty container yields a freshly created `layer-01`
div, appended to the container; the early strict revision in
`src/unnamed/part_003` instead throws on a missing marker. -/
theorem c5_fallback_chain :
    (∀ (c : Elem) (cs : List Elem),
        querySelectorAttr (c :: cs) "data-is-base-dimensions" = none →
        TsRev1.findBaseElement (c :: cs) =
          { base := c, children := c :: cs,
            loggedError := true, loggedWarn := false }) ∧
    TsRev1.findBaseElement [] =
      { base := fallbackDiv, children := [fallbackDiv],
        loggedError := true, loggedWarn := true } := by
  constructor
  · intro c cs h
    simp [TsRev1.findBaseElement, h]
  · rfl

/-- Witness for claim C5: a single child without the marker is returned
as the base, with the error diagnostic logged. -/
theorem c5_witness :
    querySelectorAttr [({ id := "child1", attrs := [] } : Elem)]
        "data-is-base-dimensions" = none ∧
      TsRev1.findBaseElement [({ id := "child1", attrs := [] } : Elem)] =
        { base := { id := "child1", attrs := [] },
          children := [{ id := "child1", attrs := [] }],
          loggedError := true, loggedWarn := false } :=
  ⟨by decide, c5_fallback_chain.1 _ _ (by decide)⟩

/-- Claim C5 counterexample: the cited strict `findBaseElement`
(`src/unnamed/part_003` lines 317–321) fails on a missing marker
instead of falling back to the first child. -/
theorem c5_counterexample :
    isErr (Part003Rev2.findBaseElement
        [({ id := "child1", attrs := [] } : Elem)]) = true := by
  decide

/-- Claim C6 (amended): a layer with `depth = 0` never moves provided
its `maxRange` is nonnegative — both in the clamped calibration-revision
`applyLayerTransformations` (for every event origin, input, modifier and
center) and unconditionally in the unclamped first-revision formula.
With a negative `maxRange` the clamp pins even a depth-0 layer away
from the origin (see the C10 theorem). -/
theorem c6_depth_zero_layer_is_static :
    ∀ (inputX inputY modX modY centerX centerY m : ℚ)
      (origin : DocsRev2.EventOrigin),
      0 ≤ m →
      DocsRev2.applyLayerTransformations inputX inputY modX modY origin
          centerX centerY [{ depth := 0, maxRange := m }] = [(0, 0)] ∧
      TsRev1.applyLayerTransformations inputX inputY modX modY
          [{ depth := 0, maxRange := m }] = [(0, 0)] := by
  intro inputX inputY modX modY centerX centerY m origin hm
  constructor
  · simp [DocsRev2.applyLayerTransformations,
      max_eq_right (neg_nonpos.mpr hm), min_eq_left hm]
  · simp [TsRev1.applyLayerTransformations]

/-- Witness for claim C6 at `maxRange = 20`. -/
theorem c6_witness :
    (0 : ℚ) ≤ 20 ∧
      (DocsRev2.applyLayerTransformations 1 1 10 10 DocsRev2.EventOrigin.mouse
          100 100 [{ depth := 0, maxRange := 20 }] = [(0, 0)] ∧
        TsRev1.applyLayerTransformations 1 1 10 10
          [{ depth := 0, maxRange := 20 }] = [(0, 0)]) :=
  ⟨by norm_num,
    c6_depth_zero_layer_is_static 1 1 10 10 100 100 20
      DocsRev2.EventOrigin.mouse (by norm_num)⟩

/-- Claim C6 counterexample: in the cited clamped revision a depth-0
layer with `maxRange = -1` is translated to `(-1px, -1px)`, not
`(0px, 0px)` — the claim fails for negative `maxRange`. -/
theorem c6_counterexample :
    DocsRev2.applyLayerTransformations 1 1 10 10 DocsRev2.EventOrigin.mouse
        100 100 [{ depth := 0, maxRange := -1 }] = [(-1, -1)] ∧
      ((-1 : ℚ), (-1 : ℚ)) ≠ ((0 : ℚ), (0 : ℚ)) := by
  constructor
  · norm_num [DocsRev2.applyLayerTransformations, DocsRev2.eventOriginScale]
  · norm_num

/-- Claim C7 (amended): for two layers with depths `0 ≤ d1 < d2` and the
same `maxRange`, under identical mouse input and while neither raw
displacement has reached the clamp, the applied displacement magnitude
of the deeper layer dominates on both axes.  (For a negative `d1` the
ordering can reverse, see the counterexample.) -/
theorem c7_displacement_monotone_in_depth :
    ∀ (mouseX mouseY centerX centerY smoothing d1 d2 m : ℚ),
      0 ≤ d1 → d1 < d2 →
      |(mouseX - centerX) * d1 * smoothing| ≤ m →
      |(mouseY - centerY) * d1 * smoothing| ≤ m →
      |(mouseX - centerX) * d2 * smoothing| ≤ m →
      |(mouseY - centerY) * d2 * smoothing| ≤ m →
      |(TsRev2.handleMouseMoveLayer mouseX mouseY centerX centerY smoothing
          { depth := d1, maxRange := m }).1| ≤
        |(TsRev2.handleMouseMoveLayer mouseX mouseY centerX centerY smoothing
          { depth := d2, maxRange := m }).1| ∧
      |(TsRev2.handleMouseMoveLayer mouseX mouseY centerX centerY smoothing
          { depth := d1, maxRange := m }).2| ≤
        |(TsRev2.handleMouseMoveLayer mouseX mouseY centerX centerY smoothing
          { depth := d2, maxRange := m }).2| := by
  intro mouseX mouseY centerX centerY smoothing d1 d2 m h0 h12 hx1 hy1 hx2 hy2
  have hd : |d1| ≤ |d2| := by
    rw [abs_of_nonneg h0, abs_of_nonneg (h0.trans h12.le)]
    exact h12.le
  have key : ∀ k : ℚ, |k * d1 * smoothing| ≤ |k * d2 * smoothing| := by
    intro k
    rw [abs_mul, abs_mul, abs_mul, abs_mul]
    gcongr
  constructor
  · simp only [TsRev2.handleMouseMoveLayer]
    rw [clamp_eq_self hx1, clamp_eq_self hx2]
    exact key _
  · simp only [TsRev2.handleMouseMoveLayer]
    rw [clamp_eq_self hy1, clamp_eq_self hy2]
    exact key _

/-- Witness for claim C7 at `d1 = 1 < d2 = 2`, `maxRange = 100`,
mouse one pixel right and below center, smoothing 1. -/
theorem c7_witness :
    (0 : ℚ) ≤ 1 ∧ (1 : ℚ) < 2 ∧
      |((101 : ℚ) - 100) * 1 * 1| ≤ 100 ∧ |((101 : ℚ) - 100) * 1 * 1| ≤ 100 ∧
      |((101 : ℚ) - 100) * 2 * 1| ≤ 100 ∧ |((101 : ℚ) - 100) * 2 * 1| ≤ 100 ∧
      (|(TsRev2.handleMouseMoveLayer 101 101 100 100 1
          { depth := 1, maxRange := 100 }).1| ≤
        |(TsRev2.handleMouseMoveLayer 101 101 100 100 1
          { depth := 2, maxRange := 100 }).1| ∧
      |(TsRev2.handleMouseMoveLayer 101 101 100 100 1
          { depth := 1, maxRange := 100 }).2| ≤
        |(TsRev2.handleMouseMoveLayer 101 101 100 100 1
          { depth := 2, maxRange := 100 }).2|) :=
  ⟨by norm_num, by norm_num,
    by rw [abs_of_nonneg (by norm_num : (0:ℚ) ≤ (101 - 100) * 1 * 1)]; norm_num,
    by rw [abs_of_nonneg (by norm_num : (0:ℚ) ≤ (101 - 100) * 1 * 1)]; norm_num,
    by rw [abs_of_nonneg (by norm_num : (0:ℚ) ≤ (101 - 100) * 2 * 1)]; norm_num,
    by rw [abs_of_nonneg (by norm_num : (0:ℚ) ≤ (101 - 100) * 2 * 1)]; norm_num,
    c7_displacement_monotone_in_depth 101 101 100 100 1 1 2 100
      (by norm_num) (by norm_num)
      (by rw [abs_of_nonneg (by norm_num : (0:ℚ) ≤ (101 - 100) * 1 * 1)]; norm_num)
      (by rw [abs_of_nonneg (by norm_num : (0:ℚ) ≤ (101 - 100) * 1 * 1)]; norm_num)
      (by rw [abs_of_nonneg (by norm_num : (0:ℚ) ≤ (101 - 100) * 2 * 1)]; norm_num)
      (by rw [abs_of_nonneg (by norm_num : (0:ℚ) ≤ (101 - 100) * 2 * 1)]; norm_num)⟩

/-- Claim C7 counterexample: for depths `d1 = -2 < d2 = 1` with
`maxRange = 100`, identical input (mouse one pixel off center,
smoothing 1) and no clamping in play, the bound displacement magnitudes
satisfy `|delta(d2)| = 1 < 2 = |delta(d1)|`, refuting monotonicity for
the claim's unrestricted `d1 < d2`. -/
theorem c7_counterexample :
    ((-2 : ℚ) < 1) ∧
      |((101 : ℚ) - 100) * (-2) * 1| ≤ 100 ∧
      |((101 : ℚ) - 100) * 1 * 1| ≤ 100 ∧
      |(TsRev2.handleMouseMoveLayer 101 101 100 100 1
          { depth := 1, maxRange := 100 }).1| <
        |(TsRev2.handleMouseMoveLayer 101 101 100 100 1
          { depth := -2, maxRange := 100 }).1| := by
  refine ⟨by norm_num, ?_, ?_, ?_⟩
  · rw [show ((101 : ℚ) - 100) * (-2) * 1 = -2 by norm_num]
    rw [abs_of_nonpos (by norm_num : (-2 : ℚ) ≤ 0)]
    norm_num
  · rw [abs_of_nonneg (by norm_num : (0:ℚ) ≤ (101 - 100) * 1 * 1)]
    norm_num
  · simp only [TsRev2.handleMouseMoveLayer]
    norm_num

/-- Claim C8 (confirmed): an orientation event with a null `beta` or
`gamma`, and a motion event with a missing `rotationRate` or a null
rotation-rate `beta`/`gamma`, are ignored: the cited handlers return
without writing transforms and without touching the controller state,
so the previous `inputX`/`inputY` persist.  (The handlers are total
functions, so no throw is possible.) -/
theorem c8_null_sensor_event_ignored :
    ∀ (options : ParallaxOptions) (layers : List ParallaxLayer)
      (transforms : List (ℚ × ℚ)) (s : TsRev1.ControllerState)
      (b g : Option ℚ),
      TsRev2.handleDeviceOrientation options layers transforms none g =
        transforms ∧
      TsRev2.handleDeviceOrientation options layers transforms b none =
        transforms ∧
      TsRev1.handleDeviceMotion options layers s none = s ∧
      TsRev1.handleDeviceMotion options layers s (some (none, g)) = s ∧
      TsRev1.handleDeviceMotion options layers s (some (b, none)) = s := by
  intro options layers transforms s b g
  refine ⟨rfl, ?_, rfl, ?_, ?_⟩
  · cases b <;> rfl
  · cases g <;> rfl
  · cases b <;> rfl

/-- Claim C9 (amended): in the cited `initializeLayers`, a missing
`data-depth`/`data-max-range` attribute parses to `0`, but an attribute
string without a parsable number prefix parses to `NaN` (modelled
`none`), not `0` — the `?? '0'` default guards only absence.  In the
cited `src/unnamed/part_000` handler a missing or empty `maxRange`
dataset entry defaults to `50`, not `0`, and only the legacy
`parseFloat(...) || 0` path coerces an unparseable string to `0`. -/
theorem c9_attribute_parsing_defaults :
    TsRev1.parseLayerAttrs none none = (some 0, some 0) ∧
      (∀ s : String, parseFloat s = none →
        TsRev1.parseLayerAttrs (some s) (some s) = (none, none)) ∧
      Part000.parseLayerAttrs none none = (some 0, some 50) ∧
      parseFloatOrZero "abc" = 0 := by
  refine ⟨by decide, ?_, by decide, by decide⟩
  intro s h
  simp [TsRev1.parseLayerAttrs, h]

/-- Witness for claim C9: the attribute string `"abc"` has no parsable
number prefix and both cached properties become `NaN`. -/
theorem c9_witness :
    parseFloat "abc" = none ∧
      TsRev1.parseLayerAttrs (some "abc") (some "abc") = (none, none) :=
  ⟨by decide, c9_attribute_parsing_defaults.2.1 "abc" (by decide)⟩

/-- Claim C9 counterexample: the present-but-unparseable attribute
`"abc"` yields `NaN` (`none`), not the claimed default `0`, for both
cached properties. -/
theorem c9_counterexample :
    TsRev1.parseLayerAttrs (some "abc") (some "abc") = (none, none) ∧
      (none : Option ℚ) ≠ some 0 := by
  constructor
  · decide
  · decide

/-- Claim C10 (confirmed): in the revisions that clamp via
`Math.min(Math.max(-maxRange, delta), maxRange)` (the cited calibration
revision and its `src/unnamed/part_003` source), a layer configured
with a negative `maxRange` is pinned: for every input, modifier, center,
event origin and depth — including depth 0 — the written translation is
exactly `(maxRange, maxRange)`. -/
theorem c10_negative_maxRange_pins_layer :
    ∀ (inputX inputY modX modY centerX centerY depth m : ℚ)
      (origin : DocsRev2.EventOrigin),
      m < 0 →
      DocsRev2.applyLayerTransformations inputX inputY modX modY origin
        centerX centerY [{ depth := depth, maxRange := m }] = [(m, m)] := by
  intro inputX inputY modX modY centerX centerY depth m origin hm
  have key : ∀ v : ℚ, min (max (-m) v) m = m := by
    intro v
    exact min_eq_right ((by linarith : m ≤ -m).trans (le_max_left _ _))
  simp [DocsRev2.applyLayerTransformations, key]

/-- Witness for claim C10 at `maxRange = -5`, depth 0, gyro origin. -/
theorem c10_witness :
    ((-5 : ℚ) < 0) ∧
      DocsRev2.applyLayerTransformations 1 1 10 10 DocsRev2.EventOrigin.gyro
        100 100 [{ depth := 0, maxRange := -5 }] = [(-5, -5)] :=
  ⟨by norm_num,
    c10_negative_maxRange_pins_layer 1 1 10 10 100 100 0 (-5)
      DocsRev2.EventOrigin.gyro (by norm_num)⟩
